import Mathlib

/-!
Verification of the migration-tool core (python prototype) against its
natural-language specification.

The development shallowly embeds the code of
`legacy/python-prototype/core/{migration_engine,project_parser,solution_parser,file_scanner}.py`
and the data model of `legacy/python-prototype/models/`:

* strings are `String`/`List Char`; Python `str.replace` and the two
  `re.sub` calls of `rename_namespace` are embedded as executable fueled
  scanners with exactly the source's matching semantics;
* the filesystem is a finite map (list) of file paths to contents plus a
  list of directory paths; paths are lists of components, mirroring
  `pathlib.Path` parts, and `root / p` is list append;
* XML documents (`xml.etree.ElementTree`) are a nested inductive of
  elements with tag, attributes, text and children; `Element` truthiness
  (an element with no children is falsy) is embedded faithfully;
* fallible I/O steps inside `try/except` blocks take their outcome as an
  explicit `Option String` fault argument (`some e` models a raised
  exception with text `e`); the enclosing operation is a total function,
  which embeds "never raises past the engine boundary".
-/

namespace PyStr

/-- Auxiliary scanner for Python `str.replace`: replaces the leftmost
non-overlapping occurrences of `old` by `new`, structurally recursive on a
fuel that the wrapper instantiates with the length of the string. -/
def replAux (old new : List Char) : Nat → List Char → List Char
  | 0, cs => cs
  | fuel + 1, cs =>
    match cs with
    | [] => []
    | c :: rest =>
      if old.isPrefixOf cs then new ++ replAux old new fuel (cs.drop old.length)
      else c :: replAux old new fuel rest

/-- Python `"".replace(old, new)` with an empty pattern inserts `new` at
every position, including both ends. -/
def insEveryAux (new : List Char) : List Char → List Char
  | [] => new
  | c :: cs => new ++ c :: insEveryAux new cs

/-- Embedding of Python `s.replace(old, new)`. -/
def pyReplace (s old new : String) : String :=
  if old.data.isEmpty then ⟨insEveryAux new.data s.data⟩
  else ⟨replAux old.data new.data s.data.length s.data⟩

/-- Embedding of Python `s.replace(a, b)` when `a` and `b` are single
characters (used for the path-separator normalizations): replacing one
character by another is a character map. -/
def pyReplaceChar (s : String) (a b : Char) : String :=
  s.map (fun c => if c = a then b else c)

/-- `dropLit l cs` consumes the literal `l` from the front of `cs`,
returning the remainder (regex literal matching). -/
def dropLit : List Char → List Char → Option (List Char)
  | [], cs => some cs
  | _ :: _, [] => none
  | l :: ls, c :: cs => if c = l then dropLit ls cs else none

/-- Backtracking for `\s+` followed by the literal `old`: try consuming
`k` whitespace characters for `k` from the greedy maximum down to 1. -/
def tryWsSplits (old cs : List Char) : Nat → Option (List Char)
  | 0 => none
  | k + 1 =>
    if old.isPrefixOf (cs.drop (k + 1)) then some ((cs.drop (k + 1)).drop old.length)
    else tryWsSplits old cs k

/-- Match `\s+` then the literal `old` at the front of `cs` (greedy with
backtracking, as `re` does for the pattern `\s+OLD`). -/
def wsThenLit (old cs : List Char) : Option (List Char) :=
  tryWsSplits old cs (cs.takeWhile Char.isWhitespace).length

/-- Match the regex `KW\s+OLD` (the shape of both substitution patterns in
`rename_namespace`) at the front of `cs`; returns the unconsumed rest. -/
def matchKwAt (kw old cs : List Char) : Option (List Char) :=
  match dropLit kw cs with
  | none => none
  | some r => wsThenLit old r

/-- Scanner for `re.sub(rf"KW\s+{re.escape(old)}", f"KW {new}", s)`:
left-to-right, non-overlapping, each match replaced by the literal
`KW new` (keyword, one space, the new name). Fueled; the wrapper passes
the string length, which bounds the number of scan steps. -/
def subAux (kw old new : List Char) : Nat → List Char → List Char
  | 0, cs => cs
  | fuel + 1, cs =>
    match matchKwAt kw old cs with
    | some r => (kw ++ ' ' :: new) ++ subAux kw old new fuel r
    | none =>
      match cs with
      | [] => []
      | c :: rest => c :: subAux kw old new fuel rest

/-- Embedding of `re.sub(rf"KW\s+{re.escape(old)}", f"KW {new}", s)`. -/
def reSubKwLit (kw old new s : String) : String :=
  ⟨subAux kw.data old.data new.data s.data.length s.data⟩

/-- `c` can continue an identifier (used only to state what "exact-token
boundary matching" from the spec would mean). -/
def isIdentChar (c : Char) : Bool := c.isAlphanum || c = '_'

/-- The character before a candidate token occurrence is a valid boundary. -/
def boundaryOk (prev : Option Char) : Bool :=
  match prev with
  | none => true
  | some c => !(isIdentChar c)

/-- `tok` occurs at the front of `cs` with a token boundary after it. -/
def tokenHeadAt (tok cs : List Char) : Bool :=
  tok.isPrefixOf cs &&
    (match (cs.drop tok.length).head? with
     | none => true
     | some c => !(isIdentChar c))

/-- Scan for a whole-token occurrence of `tok`; `prev` is the character
just before the current position. -/
def tokenOccursAux (tok : List Char) (prev : Option Char) : List Char → Bool
  | [] => boundaryOk prev && tokenHeadAt tok []
  | c :: rest =>
    (boundaryOk prev && tokenHeadAt tok (c :: rest)) || tokenOccursAux tok (some c) rest

/-- `tok` occurs in `s` as a complete token (boundaries on both sides);
this is the spec's notion of "exact-token boundary matching". -/
def tokenOccurs (tok s : String) : Bool :=
  tokenOccursAux tok.data none s.data

/-- Python `s.lower()` (ASCII case mapping, as all compared names are). -/
def pyLower (s : String) : String := ⟨s.data.map Char.toLower⟩

/-- Python `s.upper()`. -/
def pyUpper (s : String) : String := ⟨s.data.map Char.toUpper⟩

/-- Python `s.strip()`. -/
def pyStrip (s : String) : String :=
  ⟨((s.data.dropWhile Char.isWhitespace).reverse.dropWhile Char.isWhitespace).reverse⟩

/-- Python `s.startswith(t)`. -/
def pyStartsWith (s t : String) : Bool := t.data.isPrefixOf s.data

/-- Python `s.endswith(t)`. -/
def pyEndsWith (s t : String) : Bool := t.data.reverse.isPrefixOf s.data.reverse

/-- Python `s.split(sep)` for a one-character separator. -/
def splitOnCharAux (sep : Char) : List Char → List Char → List (List Char)
  | [], acc => [acc.reverse]
  | c :: rest, acc =>
    if c = sep then acc.reverse :: splitOnCharAux sep rest []
    else splitOnCharAux sep rest (c :: acc)

/-- Python `s.split(sep)` for a one-character separator. -/
def pySplitChar (s : String) (sep : Char) : List String :=
  (splitOnCharAux sep s.data []).map (fun l => ⟨l⟩)

end PyStr

namespace Xml

/-- An `xml.etree.ElementTree.Element`: tag, attributes, text, children.
`text` is the text content directly under the element (what `elem.text`
returns); attributes are `elem.get`. -/
inductive XmlElem where
  | mk (tag : String) (attribs : List (String × String)) (text : Option String)
       (children : List XmlElem)

def XmlElem.tag : XmlElem → String
  | .mk t _ _ _ => t

def XmlElem.attribs : XmlElem → List (String × String)
  | .mk _ a _ _ => a

def XmlElem.text : XmlElem → Option String
  | .mk _ _ x _ => x

def XmlElem.children : XmlElem → List XmlElem
  | .mk _ _ _ cs => cs

/-- `elem.get(key)`: attribute lookup. -/
def XmlElem.findAttr (e : XmlElem) (key : String) : Option String :=
  (e.attribs.find? (fun a => a.1 == key)).map (fun a => a.2)

/-- `elem.find(tag)`: first direct child with the given tag. -/
def XmlElem.findChild (e : XmlElem) (t : String) : Option XmlElem :=
  e.children.find? (fun c => c.tag == t)

mutual
/-- `elem.iter()`: the element and all its descendants in document order. -/
def XmlElem.iterAll : XmlElem → List XmlElem
  | .mk t a x cs => .mk t a x cs :: iterAllList cs
def iterAllList : List XmlElem → List XmlElem
  | [] => []
  | c :: cs => c.iterAll ++ iterAllList cs
end

/-- `root.iter(tag)`: all elements (root included) with the given tag, in
document order. -/
def XmlElem.iterTag (e : XmlElem) (t : String) : List XmlElem :=
  e.iterAll.filter (fun x => x.tag == t)

/-- Python truthiness of `a or b` when `a` is an `Element` or `None`: an
element with no children tests false, so a falsy element is discarded.
This embeds `elem.find(x) or elem.find(y)` exactly, including the trap
the ElementTree documentation warns about. -/
def pyOrElem (a b : Option XmlElem) : Option XmlElem :=
  match a with
  | some e => if e.children.isEmpty then b else some e
  | none => b

/-- Python truthiness of `a or b` for optional strings: an empty string
tests false. -/
def pyOrStr (a b : Option String) : Option String :=
  match a with
  | some s => if s = "" then b else some s
  | none => b

end Xml

/-- The two raised parse failures: `FileNotFoundError` and `ValueError`
(`NotFound` / `InvalidFormat` in the spec's taxonomy). -/
inductive PyError where
  | fileNotFound (msg : String)
  | valueError (msg : String)
deriving DecidableEq

namespace PathStr

/-- The final component of a string path (after the last slash). -/
def lastComponent (s : String) : String :=
  ⟨(s.data.reverse.takeWhile (fun c => c ≠ '/')).reverse⟩

/-- `pathlib` suffix of a bare name: `name[i:]` for the last dot index `i`
when `0 < i < len(name) - 1`, else empty. -/
def suffixOfName (name : List Char) : List Char :=
  let afterDot := (name.reverse.takeWhile (fun c => c ≠ '.')).length
  if afterDot = name.length then []
  else
    let i := name.length - afterDot - 1
    if 0 < i ∧ i < name.length - 1 then name.drop i else []

/-- `Path(s).suffix`. -/
def pathSuffix (s : String) : String :=
  ⟨suffixOfName (lastComponent s).data⟩

/-- `Path(s).stem`: the final component without its suffix. -/
def pathStem (s : String) : String :=
  let name := (lastComponent s).data
  ⟨name.take (name.length - (suffixOfName name).length)⟩

/-- `Path(s).parent` as a string (everything before the last slash). -/
def dirName (s : String) : String :=
  ⟨((s.data.reverse.dropWhile (fun c => c ≠ '/')).drop 1).reverse⟩

end PathStr

namespace Models

/-- `models/solution.py` `ProjectType`. -/
inductive ProjectType where
  | CLASS_LIBRARY
  | CONSOLE
  | WPF
  | TEST
  | UNKNOWN
deriving DecidableEq

/-- `models/solution.py` `PackageReference`. -/
structure PackageReference where
  name : String
  version : Option String
deriving DecidableEq

/-- `models/solution.py` `ProjectReference`. -/
structure ProjectReference where
  name : String
  path : String
deriving DecidableEq

/-- `models/solution.py` `Project` (the fields populated by the parsers;
`source_files` is only filled by an explicit scan and is not modelled). -/
structure Project where
  name : String
  path : String
  guid : Option String
  target_framework : Option String
  project_type : ProjectType
  project_references : List ProjectReference
  package_references : List PackageReference
  root_namespace : Option String
  output_type : Option String
deriving DecidableEq

end Models

namespace ProjectParsing

open Xml Models

/-- `ProjectParser.MSBUILD_NS`, the fixed MSBuild XML namespace with which
`ElementTree` qualifies every tag of a legacy-dialect document. -/
def MSBUILD_NS : String :=
  "\x7bhttp://schemas.microsoft.com/developer/msbuild/2003\x7d"

/-- `ProjectParser.TEST_PACKAGES` (lowercase names). -/
def TEST_PACKAGES : List String :=
  ["xunit", "xunit.runner.visualstudio",
   "nunit", "nunit3testadapter",
   "mstest.testframework", "mstest.testadapter",
   "microsoft.net.test.sdk"]

/-- Body of the lookup loops in `ProjectParser._get_property`: from one
`PropertyGroup`, the stripped text of the named child if that text is
truthy (non-`None`, non-empty). -/
def propFromGroup (name : String) (pg : XmlElem) : Option String :=
  match pg.findChild name with
  | some el =>
    match el.text with
    | some s => if s = "" then none else some (PyStr.pyStrip s)
    | none => none
  | none => none

/-- `ProjectParser._get_property`: try every SDK-style (unqualified)
`PropertyGroup` first, then every namespace-qualified one. -/
def getProperty (root : XmlElem) (name : String) : Option String :=
  match (root.iterTag "PropertyGroup").findSome? (propFromGroup name) with
  | some v => some v
  | none =>
    (root.iterTag (MSBUILD_NS ++ "PropertyGroup")).findSome?
      (propFromGroup (MSBUILD_NS ++ name))

/-- Per-element body of `ProjectParser._parse_package_references`: name
from the `Include` attribute, version from the `Version` attribute or,
via Python `or` on elements, from a nested `Version` child. -/
def parsePkgElem (elem : XmlElem) : Option PackageReference :=
  let name := elem.findAttr "Include"
  let versionAttr := elem.findAttr "Version"
  let version :=
    match versionAttr with
    | some v => some v
    | none =>
      match pyOrElem (elem.findChild "Version") (elem.findChild (MSBUILD_NS ++ "Version")) with
      | some ve => ve.text
      | none => none
  match name with
  | some n => some (PackageReference.mk n version)
  | none => none

/-- `ProjectParser._parse_package_references`: both tag spellings, SDK
style first, in document order. -/
def parsePackageReferences (root : XmlElem) : List PackageReference :=
  (["PackageReference", MSBUILD_NS ++ "PackageReference"].flatMap
    (fun t => root.iterTag t)).filterMap parsePkgElem

/-- `ProjectParser._resolve_reference_path` (canonicalization by
`Path.resolve()` is not modelled; existence is the `exists?` oracle). -/
def resolveReferencePath (pathOnDisk : String → Bool) (projectDir : String)
    (relative_path : String) : Option String :=
  let normalized := PyStr.pyReplaceChar relative_path '\\' '/'
  let full := projectDir ++ "/" ++ normalized
  if pathOnDisk full then some full else none

/-- Per-element body of `ProjectParser._parse_project_references`. -/
def parseProjRefElem (pathOnDisk : String → Bool) (projectDir : String)
    (elem : XmlElem) : Option ProjectReference :=
  match elem.findAttr "Include" with
  | some inc =>
    match resolveReferencePath pathOnDisk projectDir inc with
    | some p => some (ProjectReference.mk (PathStr.pathStem p) p)
    | none => none
  | none => none

/-- `ProjectParser._parse_project_references`. -/
def parseProjectReferences (pathOnDisk : String → Bool) (projectDir : String)
    (root : XmlElem) : List ProjectReference :=
  (["ProjectReference", MSBUILD_NS ++ "ProjectReference"].flatMap
    (fun t => root.iterTag t)).filterMap (parseProjRefElem pathOnDisk projectDir)

/-- `ProjectParser._determine_project_type`: the test-package rule first
(the package-name set, lowercased, intersects `TEST_PACKAGES`), then the
output-kind rules; a falsy (`None` or empty) output type is skipped. -/
def determineProjectType (output_type : Option String)
    (packages : List PackageReference) : ProjectType :=
  if packages.any (fun p => TEST_PACKAGES.contains (PyStr.pyLower p.name)) then .TEST
  else
    match output_type with
    | some ot =>
      if ot = "" then .UNKNOWN
      else if PyStr.pyLower ot = "exe" then .CONSOLE
      else if PyStr.pyLower ot = "winexe" then .WPF
      else if PyStr.pyLower ot = "library" then .CLASS_LIBRARY
      else .UNKNOWN
    | none => .UNKNOWN

/-- `ProjectParser._has_sdk_import`. -/
def hasSdkImport (root : XmlElem) : Bool :=
  root.iterAll.any (fun e =>
    PyStr.pyEndsWith e.tag "Import" &&
      (match e.findAttr "Sdk" with
       | some s => s ≠ ""
       | none => false))

/-- SDK-style detection in `ProjectParser.parse` (computed by the source,
not consulted afterwards: `_get_property` probes both dialects anyway). -/
def detectSdkStyle (root : XmlElem) : Bool :=
  (root.findAttr "Sdk").isSome || hasSdkImport root

/-- `ProjectParser.parse`. The file's XML tree is `some root` when the
markup is well formed, `none` when `ET.parse` raises `ParseError`. -/
def parse (pathOnDisk : String → Bool) (csproj_path : String)
    (xml : Option XmlElem) : Except PyError Project :=
  if pathOnDisk csproj_path = false then
    .error (.fileNotFound ("Project file not found: " ++ csproj_path))
  else if PyStr.pyLower (PathStr.pathSuffix csproj_path) ≠ ".csproj" then
    .error (.valueError ("Not a project file: " ++ csproj_path))
  else
    match xml with
    | none => .error (.valueError ("Invalid XML in " ++ csproj_path))
    | some root =>
      let target_framework :=
        pyOrStr (getProperty root "TargetFramework") (getProperty root "TargetFrameworks")
      let root_namespace := getProperty root "RootNamespace"
      let output_type := getProperty root "OutputType"
      let project_references :=
        parseProjectReferences pathOnDisk (PathStr.dirName csproj_path) root
      let package_references := parsePackageReferences root
      let project_type := determineProjectType output_type package_references
      .ok (Project.mk (PathStr.pathStem csproj_path) csproj_path none
        target_framework project_type project_references package_references
        (pyOrStr root_namespace (some (PathStr.pathStem csproj_path))) output_type)

end ProjectParsing

namespace SolutionParsing

open Models

/-- One match of `SolutionParser.PROJECT_PATTERN`: the four captured
groups of a `Project("{TYPE-GUID}") = "NAME", "PATH", "{GUID}"` line. A
solution file's content is represented by its ordered match list. -/
structure SlnEntry where
  type_guid : String
  name : String
  relative_path : String
  project_guid : String
deriving DecidableEq

/-- `SolutionParser.SOLUTION_FOLDER_GUID`. -/
def SOLUTION_FOLDER_GUID : String := "2150E333-8FDC-42A3-9474-1A3956D46DE8"

/-- `SolutionParser._resolve_project_path` (no `.resolve()`
canonicalization; existence is the `pathOnDisk` oracle). -/
def resolveProjectPath (pathOnDisk : String → Bool) (solutionDir : String)
    (relative_path : String) : Option String :=
  let normalized := PyStr.pyReplaceChar relative_path '\\' '/'
  let full := solutionDir ++ "/" ++ normalized
  if pathOnDisk full then some full
  else if PathStr.pathSuffix full = "" then
    if pathOnDisk (full ++ ".csproj") then some (full ++ ".csproj") else none
  else none

/-- `SolutionParser._parse_projects`: skip solution folders (type GUID
uppercased equals the folder GUID), drop entries whose path does not
resolve, keep the rest in order of appearance. -/
def parseProjects (pathOnDisk : String → Bool) (solutionDir : String) :
    List SlnEntry → List Project
  | [] => []
  | m :: rest =>
    if PyStr.pyUpper m.type_guid == SOLUTION_FOLDER_GUID then
      parseProjects pathOnDisk solutionDir rest
    else
      match resolveProjectPath pathOnDisk solutionDir m.relative_path with
      | none => parseProjects pathOnDisk solutionDir rest
      | some p =>
        Project.mk m.name p (some m.project_guid) none .UNKNOWN [] [] none none ::
          parseProjects pathOnDisk solutionDir rest

/-- `models/solution.py` `Solution` (the parser-populated fields). -/
structure Solution where
  name : String
  path : String
  projects : List Project
deriving DecidableEq

/-- `SolutionParser.parse`; `entries` is the ordered list of
`PROJECT_PATTERN` matches over the (BOM-stripped) file content. -/
def parse (pathOnDisk : String → Bool) (sln_path : String)
    (entries : List SlnEntry) : Except PyError Solution :=
  if pathOnDisk sln_path = false then
    .error (.fileNotFound ("Solution file not found: " ++ sln_path))
  else if PyStr.pyLower (PathStr.pathSuffix sln_path) ≠ ".sln" then
    .error (.valueError ("Not a solution file: " ++ sln_path))
  else
    .ok (Solution.mk (PathStr.pathStem sln_path) sln_path
      (parseProjects pathOnDisk (PathStr.dirName sln_path) entries))

end SolutionParsing

namespace Scanning

/-- One match of `FileScanner.TYPE_PATTERN`: the whole matched text
(`group(0)`), the three captured groups, and `match.start()`. The scanner
theorems quantify over these matches; the regex itself guarantees
`member_type_str` is one of class/interface/struct/enum/record. -/
structure TypeMatch where
  text : String
  member_type_str : String
  name : String
  inheritance : Option String
  start : Nat
deriving DecidableEq

/-- `models/file_info.py` `MemberType`. -/
inductive MemberType where
  | CLASS
  | INTERFACE
  | STRUCT
  | ENUM
  | RECORD
  | DELEGATE
deriving DecidableEq

/-- `MemberType(value)` by enum value; `none` models the `ValueError`
raised on an unknown value. -/
def memberTypeOfString (s : String) : Option MemberType :=
  if s = "class" then some .CLASS
  else if s = "interface" then some .INTERFACE
  else if s = "struct" then some .STRUCT
  else if s = "enum" then some .ENUM
  else if s = "record" then some .RECORD
  else if s = "delegate" then some .DELEGATE
  else none

/-- Match `<[^>]+>` at the front of `cs` (one generic-argument group). -/
def matchAngleAt (cs : List Char) : Option (List Char) :=
  match cs with
  | '<' :: rest =>
    let span := rest.takeWhile (fun c => c ≠ '>')
    if span.isEmpty then none
    else
      match rest.drop span.length with
      | '>' :: r2 => some r2
      | _ => none
  | _ => none

/-- Scanner for `re.sub(r"<[^>]+>", "", part)`. -/
def removeAnglesAux : Nat → List Char → List Char
  | 0, cs => cs
  | fuel + 1, cs =>
    match matchAngleAt cs with
    | some r => removeAnglesAux fuel r
    | none =>
      match cs with
      | [] => []
      | c :: rest => c :: removeAnglesAux fuel rest

/-- `re.sub(r"<[^>]+>", "", s)`: strip generic-argument brackets. -/
def removeAngles (s : String) : String :=
  ⟨removeAnglesAux s.data.length s.data⟩

/-- Python substring containment `pat in s` on character lists. -/
def containsSub (pat : List Char) : List Char → Bool
  | [] => pat.isEmpty
  | c :: rest => pat.isPrefixOf (c :: rest) || containsSub pat rest

/-- Python `s[1:2].isupper()`. -/
def isUpperSecond (s : String) : Bool :=
  match s.data with
  | _ :: c :: _ => c.isUpper
  | _ => false

/-- The inheritance-part loop of `FileScanner._extract_classes`: a part
whose simplified name starts with `I` followed by an uppercase letter is
an interface; otherwise the first such part of a `class` becomes the base
class; later ones are ignored. -/
def classifyParts (member_type : MemberType) :
    List String → Option String → List String → Option String × List String
  | [], base, intfs => (base, intfs)
  | part :: rest, base, intfs =>
    let simple_name := PyStr.pyStrip (removeAngles part)
    if PyStr.pyStartsWith simple_name "I" && isUpperSecond simple_name then
      classifyParts member_type rest base (intfs ++ [part])
    else if base = none ∧ member_type = MemberType.CLASS then
      classifyParts member_type rest (some part) intfs
    else classifyParts member_type rest base intfs

/-- `models/file_info.py` `ClassInfo` as populated by
`FileScanner._extract_classes`. `file_ns` is the model's `namespace`
field (a Lean keyword); `is_partial_kw` is the model's partial-modifier
flag. The `tests` list (filled by `_extract_tests_for_class`) is outside
the verified claims and is not modelled. -/
structure ClassInfo where
  name : String
  file_ns : Option String
  member_type : MemberType
  base_class : Option String
  interfaces : List String
  is_public : Bool
  is_abstract : Bool
  is_static : Bool
  is_partial_kw : Bool
  is_sealed : Bool
  line_number : Nat
deriving DecidableEq

/-- Per-match body of `FileScanner._extract_classes` (lines 208-256 of
`file_scanner.py`). Every modifier flag is a Python substring test
(`'public' in match_text`, etc.) on the matched text. -/
def classInfoOfMatch (content : String) (file_ns : Option String)
    (m : TypeMatch) : Option ClassInfo :=
  match memberTypeOfString (PyStr.pyLower m.member_type_str) with
  | none => none
  | some member_type =>
    let bi :=
      match m.inheritance with
      | some inh =>
        if inh = "" then (none, [])
        else classifyParts member_type ((PyStr.pySplitChar inh ',').map PyStr.pyStrip) none []
      | none => (none, [])
    let line_number := (content.data.take m.start).count '\n' + 1
    some (ClassInfo.mk m.name file_ns member_type bi.1 bi.2
      (containsSub "public".data m.text.data)
      (containsSub "abstract".data m.text.data)
      (containsSub "static".data m.text.data)
      (containsSub "partial".data m.text.data)
      (containsSub "sealed".data m.text.data)
      line_number)

/-- `FileScanner._extract_classes` over the ordered list of
`TYPE_PATTERN` matches; `none` models the `ValueError` of an unknown
member type (unreachable for regex-produced matches). -/
def extractClasses (content : String) (file_ns : Option String)
    (ms : List TypeMatch) : Option (List ClassInfo) :=
  ms.mapM (classInfoOfMatch content file_ns)

end Scanning

namespace Engine

/-- A filesystem path as its ordered components (`pathlib.Path.parts`);
`root / p` is list append. -/
abbrev FPath := List String

/-- The workspace file tree: file paths with contents, plus directory
paths. -/
structure FS where
  files : List (FPath × String)
  dirs : List FPath
deriving DecidableEq

/-- `Path.exists()`: the path names a file or a directory. -/
def FS.existsPath (fs : FS) (p : FPath) : Bool :=
  fs.files.any (fun e => e.1 == p) || fs.dirs.any (fun d => d == p)

/-- `Path.read_text()`: the content of the file at `p`, if any. -/
def FS.readFile (fs : FS) (p : FPath) : Option String :=
  (fs.files.find? (fun e => e.1 == p)).map (fun e => e.2)

/-- `Path.write_text(c)`: overwrite or create. -/
def FS.writeFile (fs : FS) (p : FPath) (c : String) : FS :=
  if fs.files.any (fun e => e.1 == p) then
    FS.mk (fs.files.map (fun e => if e.1 == p then (p, c) else e)) fs.dirs
  else FS.mk (fs.files ++ [(p, c)]) fs.dirs

/-- Every path the tree knows (file or directory). -/
def FS.allPaths (fs : FS) : List FPath :=
  fs.files.map (fun e => e.1) ++ fs.dirs

/-- The nonempty prefixes of `p.dropLast`: the directories that
`p.parent.mkdir(parents=True, exist_ok=True)` guarantees to exist. -/
def parentChain (p : FPath) : List FPath :=
  (List.range p.dropLast.length).map (fun i => p.dropLast.take (i + 1))

/-- `target.parent.mkdir(parents=True, exist_ok=True)`. -/
def FS.mkdirParents (fs : FS) (target : FPath) : FS :=
  FS.mk fs.files (fs.dirs ++ parentChain target)

/-- Relocation of one path by `shutil.move(src, dst)`: a path at or below
`src` is re-rooted at `dst`, any other path is untouched. -/
def renameUnder (src dst p : FPath) : FPath :=
  if src.isPrefixOf p then dst ++ p.drop src.length else p

/-- `shutil.move(src, dst)` on the tree. -/
def FS.movePath (fs : FS) (src dst : FPath) : FS :=
  FS.mk (fs.files.map (fun e => (renameUnder src dst e.1, e.2)))
        (fs.dirs.map (renameUnder src dst))

/-- `core/migration_engine.py` `MigrationResult`. -/
structure MigrationResult where
  success : Bool
  message : String
  details : Option (List (String × String))
deriving DecidableEq

/-- `MigrationEngine` state: workspace root, dry-run flag, and the CLI
path resolved once at construction (`_find_cli_path`). -/
structure MigrationEngine where
  workspace_root : FPath
  dry_run : Bool
  cli_path : Option FPath
deriving DecidableEq

/-- How Python prints a `PosixPath` into the result messages. -/
def fpathStr (p : FPath) : String := String.intercalate "/" p

/-- Result of `subprocess.run`: exit code, stdout, stderr, and the parsed
JSON payload when `json.loads(stdout)` succeeds. -/
structure SubprocRun where
  returncode : Int
  stdout : String
  stderr : String
  stdoutJson : Option (List (String × String))
deriving DecidableEq

/-- `MigrationEngine._call_cli`; `run` is the outcome of the subprocess
call (`.error e` models a raised exception). Always returns a
`MigrationResult`: the body catches its own exceptions. -/
def callCli (cli_path : Option FPath) (run : Except String SubprocRun) :
    MigrationResult :=
  match cli_path with
  | none => MigrationResult.mk false ".NET CLI not found" none
  | some _ =>
    match run with
    | .error e => MigrationResult.mk false ("Failed to call CLI: " ++ e) none
    | .ok r =>
      if r.returncode = 0 then
        match r.stdoutJson with
        | some d => MigrationResult.mk true "CLI command succeeded" (some d)
        | none => MigrationResult.mk true r.stdout none
      else MigrationResult.mk false ("CLI error: " ++ r.stderr) none

/-- `MigrationEngine.move_folder`. The `try` block runs two statements:
`target.parent.mkdir(parents=True, exist_ok=True)`, then
`shutil.move(source, target)`. Each statement has its own fault input
(`some e` models a raised exception, caught into a failed result), at
Python-statement granularity: a raising `mkdir` is modelled as
effectless, while a raise in `shutil.move` leaves the parent directories
that the completed `mkdir` created (the move step itself is atomic, per
the spec). -/
def MigrationEngine.move_folder (eng : MigrationEngine) (fs : FS)
    (source target : FPath) (mkdirFault mvFault : Option String) :
    MigrationResult × FS :=
  let source_abs := eng.workspace_root ++ source
  let target_abs := eng.workspace_root ++ target
  if fs.existsPath source_abs = false then
    (MigrationResult.mk false ("Source folder does not exist: " ++ fpathStr source) none, fs)
  else if fs.existsPath target_abs then
    (MigrationResult.mk false ("Target folder already exists: " ++ fpathStr target) none, fs)
  else if eng.dry_run then
    (MigrationResult.mk true
      ("[DRY RUN] Would move: " ++ fpathStr source ++ " -> " ++ fpathStr target) none, fs)
  else
    match mkdirFault with
    | some e => (MigrationResult.mk false ("Failed to move folder: " ++ e) none, fs)
    | none =>
      let fs1 := fs.mkdirParents target_abs
      match mvFault with
      | some e => (MigrationResult.mk false ("Failed to move folder: " ++ e) none, fs1)
      | none =>
        (MigrationResult.mk true ("Moved: " ++ fpathStr source ++ " -> " ++ fpathStr target) none,
          fs1.movePath source_abs target_abs)

/-- `MigrationEngine.move_file` (same body as `move_folder` up to
messages; both call `mkdir` then `shutil.move`, with the same
per-statement fault model). -/
def MigrationEngine.move_file (eng : MigrationEngine) (fs : FS)
    (source target : FPath) (mkdirFault mvFault : Option String) :
    MigrationResult × FS :=
  let source_abs := eng.workspace_root ++ source
  let target_abs := eng.workspace_root ++ target
  if fs.existsPath source_abs = false then
    (MigrationResult.mk false ("Source file does not exist: " ++ fpathStr source) none, fs)
  else if fs.existsPath target_abs then
    (MigrationResult.mk false ("Target file already exists: " ++ fpathStr target) none, fs)
  else if eng.dry_run then
    (MigrationResult.mk true
      ("[DRY RUN] Would move: " ++ fpathStr source ++ " -> " ++ fpathStr target) none, fs)
  else
    match mkdirFault with
    | some e => (MigrationResult.mk false ("Failed to move file: " ++ e) none, fs)
    | none =>
      let fs1 := fs.mkdirParents target_abs
      match mvFault with
      | some e => (MigrationResult.mk false ("Failed to move file: " ++ e) none, fs1)
      | none =>
        (MigrationResult.mk true ("Moved: " ++ fpathStr source ++ " -> " ++ fpathStr target) none,
          fs1.movePath source_abs target_abs)

/-- `MigrationEngine.update_project_reference`. `readFault`/`writeFault`
are the outcomes of `read_text`/`write_text` (`some e` = raised, caught
into a failed result). A read of an existing but contentless path (a
directory) is the caught unreadable case. The tree returned after a
write fault is the pre-write tree; a partially performed `write_text` is
below the model's granularity and no theorem relies on the post-fault
tree of a failed write. -/
def MigrationEngine.update_project_reference (eng : MigrationEngine) (fs : FS)
    (project_path : FPath) (old_ref new_ref : String)
    (readFault writeFault : Option String) : MigrationResult × FS :=
  let project_abs := eng.workspace_root ++ project_path
  if fs.existsPath project_abs = false then
    (MigrationResult.mk false ("Project file does not exist: " ++ fpathStr project_path) none, fs)
  else if eng.dry_run then
    (MigrationResult.mk true ("[DRY RUN] Would update reference in " ++ fpathStr project_path) none, fs)
  else
    match readFault with
    | some e => (MigrationResult.mk false ("Failed to update reference: " ++ e) none, fs)
    | none =>
      match fs.readFile project_abs with
      | none =>
        (MigrationResult.mk false
          ("Failed to update reference: " ++ ("unreadable: " ++ fpathStr project_path)) none, fs)
      | some content =>
        let updated := PyStr.pyReplace content old_ref new_ref
        if content ≠ updated then
          match writeFault with
          | some e => (MigrationResult.mk false ("Failed to update reference: " ++ e) none, fs)
          | none =>
            (MigrationResult.mk true ("Updated reference in " ++ fpathStr project_path) none,
              fs.writeFile project_abs updated)
        else (MigrationResult.mk true ("No changes needed in " ++ fpathStr project_path) none, fs)

/-- `MigrationEngine.update_solution_project_path`: replacement tried
with both fragments normalized to backslashes, then, if nothing matched,
with forward slashes. -/
def MigrationEngine.update_solution_project_path (eng : MigrationEngine) (fs : FS)
    (solution_path : FPath) (old_path new_path : String)
    (readFault writeFault : Option String) : MigrationResult × FS :=
  let solution_abs := eng.workspace_root ++ solution_path
  if fs.existsPath solution_abs = false then
    (MigrationResult.mk false ("Solution file does not exist: " ++ fpathStr solution_path) none, fs)
  else if eng.dry_run then
    (MigrationResult.mk true ("[DRY RUN] Would update solution " ++ fpathStr solution_path) none, fs)
  else
    match readFault with
    | some e => (MigrationResult.mk false ("Failed to update solution: " ++ e) none, fs)
    | none =>
      match fs.readFile solution_abs with
      | none =>
        (MigrationResult.mk false
          ("Failed to update solution: " ++ ("unreadable: " ++ fpathStr solution_path)) none, fs)
      | some content =>
        let old_normalized := PyStr.pyReplaceChar old_path '/' '\\'
        let new_normalized := PyStr.pyReplaceChar new_path '/' '\\'
        let updated := PyStr.pyReplace content old_normalized new_normalized
        let updated2 :=
          if content = updated then
            PyStr.pyReplace content (PyStr.pyReplaceChar old_path '\\' '/')
              (PyStr.pyReplaceChar new_path '\\' '/')
          else updated
        if content ≠ updated2 then
          match writeFault with
          | some e => (MigrationResult.mk false ("Failed to update solution: " ++ e) none, fs)
          | none =>
            (MigrationResult.mk true ("Updated project path in " ++ fpathStr solution_path) none,
              fs.writeFile solution_abs updated2)
        else (MigrationResult.mk true ("No changes needed in " ++ fpathStr solution_path) none, fs)

/-- The fallback of `rename_namespace`: substitute the namespace
declaration, then the using statements, each by
`re.sub(rf"KW\s+{re.escape(old)}", f"KW {new}", ...)`. -/
def fallbackSubstitution (content old_namespace new_namespace : String) : String :=
  PyStr.reSubKwLit "using" old_namespace new_namespace
    (PyStr.reSubKwLit "namespace" old_namespace new_namespace content)

/-- `MigrationEngine.rename_namespace`: precondition and dry-run checks,
then the external CLI (trusted only if it reports success; a mutation the
delegate itself performs on disk is outside this model), then the text
fallback. -/
def MigrationEngine.rename_namespace (eng : MigrationEngine) (fs : FS)
    (file_path : FPath) (old_namespace new_namespace : String)
    (cliRun : Except String SubprocRun)
    (readFault writeFault : Option String) : MigrationResult × FS :=
  let file_abs := eng.workspace_root ++ file_path
  if fs.existsPath file_abs = false then
    (MigrationResult.mk false ("File does not exist: " ++ fpathStr file_path) none, fs)
  else if eng.dry_run then
    (MigrationResult.mk true ("[DRY RUN] Would rename namespace in " ++ fpathStr file_path) none, fs)
  else
    let cliStep : Option MigrationResult :=
      match eng.cli_path with
      | some _ =>
        let r := callCli eng.cli_path cliRun
        if r.success then some r else none
      | none => none
    match cliStep with
    | some r => (r, fs)
    | none =>
      match readFault with
      | some e => (MigrationResult.mk false ("Failed to rename namespace: " ++ e) none, fs)
      | none =>
        match fs.readFile file_abs with
        | none =>
          (MigrationResult.mk false
            ("Failed to rename namespace: " ++ ("unreadable: " ++ fpathStr file_path)) none, fs)
        | some content =>
          let updated := fallbackSubstitution content old_namespace new_namespace
          if content ≠ updated then
            match writeFault with
            | some e => (MigrationResult.mk false ("Failed to rename namespace: " ++ e) none, fs)
            | none =>
              (MigrationResult.mk true ("Renamed namespace in " ++ fpathStr file_path) none,
                fs.writeFile file_abs updated)
          else (MigrationResult.mk true ("No changes needed in " ++ fpathStr file_path) none, fs)

end Engine

namespace Engine

/-- Well-formedness of a starting tree: every proper ancestor (every
nonempty proper component prefix) of a path in the tree exists — on a
real filesystem the parent directories of an existing entry always
exist. -/
def FS.ParentClosed (fs : FS) : Prop :=
  ∀ p ∈ fs.allPaths, ∀ i : Nat, i < p.length → 0 < i → fs.existsPath (p.take i) = true

end Engine

namespace ProjectParsing

open Xml

/-- The tag has no `ElementTree`-style namespace qualifier (its first
character is not a brace). -/
def plainStr (s : String) : Bool :=
  match s.data with
  | [] => true
  | c :: _ => c ≠ '\x7b'

mutual
/-- Re-tag a document with every element qualified by the MSBuild XML
namespace: the legacy-dialect rendering of the same content. -/
def qualifyElem : XmlElem → XmlElem
  | .mk t a x cs => .mk (MSBUILD_NS ++ t) a x (qualifyList cs)
def qualifyList : List XmlElem → List XmlElem
  | [] => []
  | c :: cs => qualifyElem c :: qualifyList cs
end

mutual
/-- Every tag in the document is unqualified (the SDK-style dialect). -/
def plainElem : XmlElem → Bool
  | .mk t _ _ cs => plainStr t && plainList cs
def plainList : List XmlElem → Bool
  | [] => true
  | c :: cs => plainElem c && plainList cs
end

end ProjectParsing

namespace PyStr

theorem isPrefixOf_eq_true_iff {α : Type} [BEq α] [LawfulBEq α] (a b : List α) :
    a.isPrefixOf b = true ↔ ∃ t, b = a ++ t := by
  rw [ List.isPrefixOf_iff_prefix]
  constructor
  · rintro ⟨t, rfl⟩
    exact ⟨t, rfl⟩
  · rintro ⟨t, rfl⟩
    exact ⟨t, rfl⟩

theorem dropLit_append (l cs : List Char) : dropLit l (l ++ cs) = some cs := by
  induction l with
  | nil => simp [dropLit]
  | cons c ls ih => simp [dropLit, ih]

theorem matchKwAt_keyword_space (kw old u : List Char) (c : Char)
    (hhead : old.head? = some c) (hws : c.isWhitespace = false) :
    matchKwAt kw old (kw ++ ' ' :: (old ++ u)) = some u := by
  match old, hhead with
  | o :: otl, hhead =>
    have hc : o = c := by simpa using hhead
    subst hc
    simp only [matchKwAt, dropLit_append]
    have htw : ((' ' :: (o :: otl ++ u)).takeWhile Char.isWhitespace) = [' '] := by
      simp [List.takeWhile, hws]
    rw [wsThenLit, htw]
    simp only [List.length_cons, List.length_nil, tryWsSplits, List.drop_succ_cons,
      List.drop_zero]
    have hpre : (o :: otl).isPrefixOf (o :: otl ++ u) = true :=
      (isPrefixOf_eq_true_iff _ _).mpr ⟨u, rfl⟩
    rw [hpre]
    simp [List.drop_left]

theorem subAux_rewrites_head (kw old new u : List Char) (f : Nat) (c : Char)
    (hhead : old.head? = some c) (hws : c.isWhitespace = false) :
    subAux kw old new (f + 1) (kw ++ ' ' :: (old ++ u)) =
      (kw ++ ' ' :: new) ++ subAux kw old new f u := by
  rw [subAux.eq_def]
  simp only [matchKwAt_keyword_space kw old u c hhead hws]

end PyStr

/-- C10: for every path absent from disk, both `SolutionParser.parse` and
`ProjectParser.parse` raise the `NotFound` failure (`FileNotFoundError`)
and never `InvalidFormat`, whatever the path's extension: the existence
check precedes the extension check. -/
theorem c10_missing_path_raises_not_found
    (pathOnDisk : String → Bool) (p : String)
    (entries : List SolutionParsing.SlnEntry) (xml : Option Xml.XmlElem)
    (h : pathOnDisk p = false) :
    SolutionParsing.parse pathOnDisk p entries =
      .error (.fileNotFound ("Solution file not found: " ++ p)) ∧
    ProjectParsing.parse pathOnDisk p xml =
      .error (.fileNotFound ("Project file not found: " ++ p)) := by
  constructor
  · simp [SolutionParsing.parse, h]
  · simp [ProjectParsing.parse, h]

theorem c10_missing_path_raises_not_found_witness :
    ((fun _ : String => false) "x.txt" = false) ∧
    (SolutionParsing.parse (fun _ => false) "x.txt" [] =
      .error (.fileNotFound ("Solution file not found: " ++ "x.txt")) ∧
    ProjectParsing.parse (fun _ => false) "x.txt" none =
      .error (.fileNotFound ("Project file not found: " ++ "x.txt"))) :=
  ⟨rfl, c10_missing_path_raises_not_found (fun _ => false) "x.txt" [] none rfl⟩

/-- C6: a package named `xunit` under any casing forces classification
`test` for every output kind; the output-kind rules (`exe` to console,
`winexe` to the GUI-desktop kind, `library` to library) apply only after
the test-package rule. -/
theorem c6_xunit_forces_test_classification
    (output_type : Option String) (packages : List Models.PackageReference)
    (p : Models.PackageReference) (hmem : p ∈ packages)
    (hx : PyStr.pyLower p.name = "xunit") :
    ProjectParsing.determineProjectType output_type packages = .TEST ∧
    ProjectParsing.determineProjectType (some "exe") [] = .CONSOLE ∧
    ProjectParsing.determineProjectType (some "winexe") [] = .WPF ∧
    ProjectParsing.determineProjectType (some "library") [] = .CLASS_LIBRARY := by
  refine ⟨?_, by decide, by decide, by decide⟩
  have hany : packages.any
      (fun q => ProjectParsing.TEST_PACKAGES.contains (PyStr.pyLower q.name)) = true :=
    List.any_eq_true.mpr ⟨p, hmem, by rw [hx]; decide⟩
  simp only [ProjectParsing.determineProjectType, hany, if_true]

theorem c6_xunit_forces_test_classification_witness :
    (PyStr.pyLower (Models.PackageReference.mk "xUnit" (some "2.4.2")).name = "xunit") ∧
    ProjectParsing.determineProjectType (some "Exe")
      [Models.PackageReference.mk "xUnit" (some "2.4.2")] = .TEST :=
  ⟨by decide,
    (c6_xunit_forces_test_classification (some "Exe") _ _ (List.mem_singleton.mpr rfl)
      (by decide)).1⟩

/-- C5: `_parse_projects` is exactly a filter (dropping entries whose
type GUID equals the solution-folder GUID case-insensitively, and
entries whose path fails to resolve) followed by a per-entry projection,
so no returned project stems from a folder entry and the survivors keep
their order of appearance. -/
theorem c5_no_solution_folders_and_order_kept
    (pathOnDisk : String → Bool) (solutionDir : String)
    (entries : List SolutionParsing.SlnEntry) :
    SolutionParsing.parseProjects pathOnDisk solutionDir entries =
      (entries.filter (fun m =>
        !(PyStr.pyUpper m.type_guid == SolutionParsing.SOLUTION_FOLDER_GUID) &&
        (SolutionParsing.resolveProjectPath pathOnDisk solutionDir m.relative_path).isSome)).map
        (fun m => Models.Project.mk m.name
          ((SolutionParsing.resolveProjectPath pathOnDisk solutionDir m.relative_path).getD "")
          (some m.project_guid) none .UNKNOWN [] [] none none) := by
  induction entries with
  | nil => rfl
  | cons m rest ih =>
    by_cases hg : (PyStr.pyUpper m.type_guid == SolutionParsing.SOLUTION_FOLDER_GUID) = true
    · simp [SolutionParsing.parseProjects, hg, ih]
    · cases hr : SolutionParsing.resolveProjectPath pathOnDisk solutionDir m.relative_path with
      | none =>
        simp [SolutionParsing.parseProjects, Bool.of_not_eq_true hg, hr, ih]
      | some p =>
        simp [SolutionParsing.parseProjects, Bool.of_not_eq_true hg, hr, ih]

/-- C3: evaluation of `_parse_package_references` at the failing input.
An SDK-style `PackageReference` with an `Include` attribute, no `Version`
attribute and a nested `<Version>13.0.1</Version>` child loses the
version: the child element has no children, so it is falsy and the `or`
chain discards it (the namespace-qualified child of the legacy dialect,
by contrast, is kept, because there `elem.find('Version')` is `None`).
The spec and the code's own comment intend the child's text to be used. -/
theorem c3_nested_version_child_is_lost :
    ProjectParsing.parsePkgElem
      (Xml.XmlElem.mk "PackageReference" [("Include", "Newtonsoft.Json")] none
        [Xml.XmlElem.mk "Version" [] (some "13.0.1") []]) =
      some (Models.PackageReference.mk "Newtonsoft.Json" none) ∧
    ProjectParsing.parsePackageReferences
      (Xml.XmlElem.mk "Project" [("Sdk", "Microsoft.NET.Sdk")] none
        [Xml.XmlElem.mk "ItemGroup" [] none
          [Xml.XmlElem.mk "PackageReference" [("Include", "Newtonsoft.Json")] none
            [Xml.XmlElem.mk "Version" [] (some "13.0.1") []]]]) =
      [Models.PackageReference.mk "Newtonsoft.Json" none] ∧
    ProjectParsing.parsePkgElem
      (Xml.XmlElem.mk (ProjectParsing.MSBUILD_NS ++ "PackageReference")
        [("Include", "Newtonsoft.Json")] none
        [Xml.XmlElem.mk (ProjectParsing.MSBUILD_NS ++ "Version") [] (some "13.0.1") []]) =
      some (Models.PackageReference.mk "Newtonsoft.Json" (some "13.0.1")) := by
  refine ⟨rfl, ?_, ?_⟩ <;> decide

/-- C2 counterexample: the fallback substitution of `rename_namespace`
does rewrite an occurrence in which the old namespace is a proper prefix
of a longer identifier — renaming `Old` to `New` turns
`namespace OldExtra;` into `namespace NewExtra;` instead of leaving it
unchanged, because the patterns `namespace\s+OLD` / `using\s+OLD` carry
no boundary after the old name. -/
theorem c2_counterexample_prefix_is_rewritten :
    Engine.fallbackSubstitution "namespace OldExtra;" "Old" "New" = "namespace NewExtra;" ∧
    Engine.fallbackSubstitution "namespace OldExtra;" "Old" "New" ≠ "namespace OldExtra;" ∧
    Engine.fallbackSubstitution "using OldExtra;" "Old" "New" = "using NewExtra;" := by
  refine ⟨?_, ?_, ?_⟩ <;> decide

/-- C2 (amended): the fallback substitutions match the old namespace by
prefix only, with no boundary check after it: whenever the keyword,
whitespace and the old name occur, the occurrence is rewritten to the
keyword, a space and the new name — even when the old name is a proper
prefix of a longer identifier (the scan then continues on the rest). -/
theorem c2_amended_fallback_rewrites_prefix_occurrences
    (old new u : List Char) (f : Nat) (c : Char)
    (hhead : old.head? = some c) (hws : c.isWhitespace = false) :
    PyStr.subAux "namespace".data old new (f + 1)
        ("namespace".data ++ ' ' :: (old ++ u)) =
      ("namespace".data ++ ' ' :: new) ++ PyStr.subAux "namespace".data old new f u ∧
    PyStr.subAux "using".data old new (f + 1)
        ("using".data ++ ' ' :: (old ++ u)) =
      ("using".data ++ ' ' :: new) ++ PyStr.subAux "using".data old new f u :=
  ⟨PyStr.subAux_rewrites_head "namespace".data old new u f c hhead hws,
   PyStr.subAux_rewrites_head "using".data old new u f c hhead hws⟩

theorem c2_amended_fallback_rewrites_prefix_occurrences_witness :
    ("Old".data.head? = some 'O') ∧ ('O'.isWhitespace = false) ∧
    (PyStr.subAux "namespace".data "Old".data "New".data 1
        ("namespace".data ++ ' ' :: ("Old".data ++ "Extra;".data)) =
      ("namespace".data ++ ' ' :: "New".data) ++
        PyStr.subAux "namespace".data "Old".data "New".data 0 "Extra;".data ∧
    PyStr.subAux "using".data "Old".data "New".data 1
        ("using".data ++ ' ' :: ("Old".data ++ "Extra;".data)) =
      ("using".data ++ ' ' :: "New".data) ++
        PyStr.subAux "using".data "Old".data "New".data 0 "Extra;".data) :=
  ⟨rfl, by decide,
    c2_amended_fallback_rewrites_prefix_occurrences "Old".data "New".data
      "Extra;".data 0 'O' rfl (by decide)⟩

/-- C9 counterexample: `class Republic` carries no access modifier and no
`public` keyword, yet the scanner records it as public, because the
modifier flags are Python substring tests on the matched text and
`Republic` contains `public` as a substring.  `tokenOccurs` is the
claim's notion of containing the keyword as a complete token. -/
theorem c9_counterexample_substring_not_keyword :
    ((Scanning.classInfoOfMatch "class Republic \x7b\x7d" none
        (Scanning.TypeMatch.mk "class Republic" "class" "Republic" none 0)).map
      (fun ci => ci.is_public)) = some true ∧
    PyStr.tokenOccurs "public" "class Republic" = false := by
  refine ⟨?_, ?_⟩ <;> decide

/-- C9 (amended): `is_public` is true exactly when the six characters
`public` occur as a substring anywhere in the matched declaration text (a
substring test, not a token test); a declaration with no access modifier
is therefore recorded as non-public only when no other part of the
declaration contains `public` as a substring. -/
theorem c9_amended_is_public_is_substring_test
    (content : String) (file_ns : Option String) (m : Scanning.TypeMatch)
    (ci : Scanning.ClassInfo)
    (h : Scanning.classInfoOfMatch content file_ns m = some ci) :
    ci.is_public = Scanning.containsSub "public".data m.text.data := by
  simp only [Scanning.classInfoOfMatch] at h
  cases hm : Scanning.memberTypeOfString (PyStr.pyLower m.member_type_str) with
  | none => rw [hm] at h; cases h
  | some mt =>
    rw [hm] at h
    simp only [Option.some.injEq] at h
    subst h
    rfl

theorem c9_amended_is_public_is_substring_test_witness :
    (Scanning.classInfoOfMatch "x" none
        (Scanning.TypeMatch.mk "public class Foo" "class" "Foo" none 0) =
      some (Scanning.ClassInfo.mk "Foo" none .CLASS none [] true false false false false 1)) ∧
    (Scanning.ClassInfo.mk "Foo" none .CLASS none [] true false false false false 1).is_public =
      Scanning.containsSub "public".data "public class Foo".data :=
  ⟨by decide,
    c9_amended_is_public_is_substring_test "x" none
      (Scanning.TypeMatch.mk "public class Foo" "class" "Foo" none 0)
      (Scanning.ClassInfo.mk "Foo" none .CLASS none [] true false false false false 1)
      (by decide)⟩

/-- C1: for every starting tree, the dry-run engine never writes (its
returned tree is its input tree, for all inputs); its verdict is exactly
the conjunction of the read-based precondition checks; and on a failing
precondition (missing source, existing target, missing file) the dry-run
and live engines return completely identical results, hence identical
success flags and failure categories. -/
theorem c1_dry_run_agrees_with_live_on_failing_preconditions
    (root : Engine.FPath) (cli : Option Engine.FPath) (fs : Engine.FS)
    (src tgt pp sp fp : Engine.FPath)
    (old_ref new_ref old_path new_path old_namespace new_namespace : String)
    (mkf mf rf wf rf2 wf2 rf3 wf3 : Option String)
    (cliRun : Except String Engine.SubprocRun)
    (dryE liveE : Engine.MigrationEngine)
    (hd : dryE = Engine.MigrationEngine.mk root true cli)
    (hl : liveE = Engine.MigrationEngine.mk root false cli) :
    (dryE.move_folder fs src tgt mkf mf).2 = fs ∧
    (dryE.move_file fs src tgt mkf mf).2 = fs ∧
    (dryE.update_project_reference fs pp old_ref new_ref rf wf).2 = fs ∧
    (dryE.update_solution_project_path fs sp old_path new_path rf2 wf2).2 = fs ∧
    (dryE.rename_namespace fs fp old_namespace new_namespace cliRun rf3 wf3).2 = fs ∧
    ((dryE.move_folder fs src tgt mkf mf).1.success
      = (fs.existsPath (root ++ src) && !fs.existsPath (root ++ tgt))) ∧
    ((dryE.move_file fs src tgt mkf mf).1.success
      = (fs.existsPath (root ++ src) && !fs.existsPath (root ++ tgt))) ∧
    ((dryE.update_project_reference fs pp old_ref new_ref rf wf).1.success
      = fs.existsPath (root ++ pp)) ∧
    ((dryE.update_solution_project_path fs sp old_path new_path rf2 wf2).1.success
      = fs.existsPath (root ++ sp)) ∧
    ((dryE.rename_namespace fs fp old_namespace new_namespace cliRun rf3 wf3).1.success
      = fs.existsPath (root ++ fp)) ∧
    ((fs.existsPath (root ++ src) = false ∨ fs.existsPath (root ++ tgt) = true) →
      dryE.move_folder fs src tgt mkf mf = liveE.move_folder fs src tgt mkf mf) ∧
    ((fs.existsPath (root ++ src) = false ∨ fs.existsPath (root ++ tgt) = true) →
      dryE.move_file fs src tgt mkf mf = liveE.move_file fs src tgt mkf mf) ∧
    (fs.existsPath (root ++ pp) = false →
      dryE.update_project_reference fs pp old_ref new_ref rf wf
        = liveE.update_project_reference fs pp old_ref new_ref rf wf) ∧
    (fs.existsPath (root ++ sp) = false →
      dryE.update_solution_project_path fs sp old_path new_path rf2 wf2
        = liveE.update_solution_project_path fs sp old_path new_path rf2 wf2) ∧
    (fs.existsPath (root ++ fp) = false →
      dryE.rename_namespace fs fp old_namespace new_namespace cliRun rf3 wf3
        = liveE.rename_namespace fs fp old_namespace new_namespace cliRun rf3 wf3) := by
  subst hd; subst hl
  refine ⟨?_, ?_, ?_, ?_, ?_, ?_, ?_, ?_, ?_, ?_, ?_, ?_, ?_, ?_, ?_⟩
  · cases h1 : fs.existsPath (root ++ src) <;> cases h2 : fs.existsPath (root ++ tgt) <;>
      simp [Engine.MigrationEngine.move_folder, h1, h2]
  · cases h1 : fs.existsPath (root ++ src) <;> cases h2 : fs.existsPath (root ++ tgt) <;>
      simp [Engine.MigrationEngine.move_file, h1, h2]
  · cases h1 : fs.existsPath (root ++ pp) <;>
      simp [Engine.MigrationEngine.update_project_reference, h1]
  · cases h1 : fs.existsPath (root ++ sp) <;>
      simp [Engine.MigrationEngine.update_solution_project_path, h1]
  · cases h1 : fs.existsPath (root ++ fp) <;>
      simp [Engine.MigrationEngine.rename_namespace, h1]
  · cases h1 : fs.existsPath (root ++ src) <;> cases h2 : fs.existsPath (root ++ tgt) <;>
      simp [Engine.MigrationEngine.move_folder, h1, h2]
  · cases h1 : fs.existsPath (root ++ src) <;> cases h2 : fs.existsPath (root ++ tgt) <;>
      simp [Engine.MigrationEngine.move_file, h1, h2]
  · cases h1 : fs.existsPath (root ++ pp) <;>
      simp [Engine.MigrationEngine.update_project_reference, h1]
  · cases h1 : fs.existsPath (root ++ sp) <;>
      simp [Engine.MigrationEngine.update_solution_project_path, h1]
  · cases h1 : fs.existsPath (root ++ fp) <;>
      simp [Engine.MigrationEngine.rename_namespace, h1]
  · rintro (h1 | h2)
    · simp [Engine.MigrationEngine.move_folder, h1]
    · cases h1 : fs.existsPath (root ++ src) <;>
        simp [Engine.MigrationEngine.move_folder, h1, h2]
  · rintro (h1 | h2)
    · simp [Engine.MigrationEngine.move_file, h1]
    · cases h1 : fs.existsPath (root ++ src) <;>
        simp [Engine.MigrationEngine.move_file, h1, h2]
  · intro h1
    simp [Engine.MigrationEngine.update_project_reference, h1]
  · intro h1
    simp [Engine.MigrationEngine.update_solution_project_path, h1]
  · intro h1
    simp [Engine.MigrationEngine.rename_namespace, h1]

theorem c1_dry_run_agrees_with_live_on_failing_preconditions_witness :
    ((Engine.FS.mk [] [["w", "A"]]).existsPath (["w"] ++ ["Z"]) = false) ∧
    (Engine.MigrationEngine.mk ["w"] true none).move_folder
        (Engine.FS.mk [] [["w", "A"]]) ["Z"] ["B"] none none =
      (Engine.MigrationEngine.mk ["w"] false none).move_folder
        (Engine.FS.mk [] [["w", "A"]]) ["Z"] ["B"] none none ∧
    ((Engine.MigrationEngine.mk ["w"] true none).move_folder
        (Engine.FS.mk [] [["w", "A"]]) ["Z"] ["B"] none none).2 =
      Engine.FS.mk [] [["w", "A"]] ∧
    (Engine.MigrationEngine.mk ["w"] true none).update_project_reference
        (Engine.FS.mk [] [["w", "A"]]) ["P"] "" "" none none =
      (Engine.MigrationEngine.mk ["w"] false none).update_project_reference
        (Engine.FS.mk [] [["w", "A"]]) ["P"] "" "" none none := by
  have h := c1_dry_run_agrees_with_live_on_failing_preconditions ["w"] none
    (Engine.FS.mk [] [["w", "A"]]) ["Z"] ["B"] ["P"] ["S"] ["F"] "" "" "" "" "" ""
    none none none none none none none none (Except.error "")
    (Engine.MigrationEngine.mk ["w"] true none)
    (Engine.MigrationEngine.mk ["w"] false none) rfl rfl
  obtain ⟨a1, _, _, _, _, _, _, _, _, _, k1, _, k3, _, _⟩ := h
  exact ⟨by decide, k1 (Or.inl (by decide)), a1, k3 (by decide)⟩

/-- C7: every engine operation is a total function into
`MigrationResult × FS` — an underlying exception is an explicit outcome,
not an escape — and for every reachable fault point of every operation
(`mkdir` and `shutil.move` of the two moves; `read_text` and
`write_text` of the three text operations, the rename after any
non-successful delegate step, configured or not), an exception with text
`e` yields a failed `MigrationResult` carrying `e`; a failed move leaves
the tree as the completed statements left it (unchanged after a `mkdir`
fault, parent directories created after a `shutil.move` fault), and a
read fault leaves the tree unchanged. -/
theorem c7_underlying_errors_become_failed_results
    (root : Engine.FPath) (cli : Option Engine.FPath) (fs : Engine.FS)
    (src tgt pp sp fp : Engine.FPath)
    (old_ref new_ref old_path new_path old_namespace new_namespace : String)
    (e : String) (mf wf : Option String) (content : String)
    (cliRun : Except String Engine.SubprocRun)
    (liveE : Engine.MigrationEngine)
    (hl : liveE = Engine.MigrationEngine.mk root false cli) :
    (fs.existsPath (root ++ src) = true → fs.existsPath (root ++ tgt) = false →
      liveE.move_folder fs src tgt (some e) mf =
        (Engine.MigrationResult.mk false ("Failed to move folder: " ++ e) none, fs)) ∧
    (fs.existsPath (root ++ src) = true → fs.existsPath (root ++ tgt) = false →
      liveE.move_folder fs src tgt none (some e) =
        (Engine.MigrationResult.mk false ("Failed to move folder: " ++ e) none,
          fs.mkdirParents (root ++ tgt))) ∧
    (fs.existsPath (root ++ src) = true → fs.existsPath (root ++ tgt) = false →
      liveE.move_file fs src tgt (some e) mf =
        (Engine.MigrationResult.mk false ("Failed to move file: " ++ e) none, fs)) ∧
    (fs.existsPath (root ++ src) = true → fs.existsPath (root ++ tgt) = false →
      liveE.move_file fs src tgt none (some e) =
        (Engine.MigrationResult.mk false ("Failed to move file: " ++ e) none,
          fs.mkdirParents (root ++ tgt))) ∧
    (fs.existsPath (root ++ pp) = true →
      liveE.update_project_reference fs pp old_ref new_ref (some e) wf =
        (Engine.MigrationResult.mk false ("Failed to update reference: " ++ e) none, fs)) ∧
    (fs.existsPath (root ++ pp) = true →
      fs.readFile (root ++ pp) = some content →
      content ≠ PyStr.pyReplace content old_ref new_ref →
      (liveE.update_project_reference fs pp old_ref new_ref none (some e)).1 =
        Engine.MigrationResult.mk false ("Failed to update reference: " ++ e) none) ∧
    (fs.existsPath (root ++ sp) = true →
      liveE.update_solution_project_path fs sp old_path new_path (some e) wf =
        (Engine.MigrationResult.mk false ("Failed to update solution: " ++ e) none, fs)) ∧
    (fs.existsPath (root ++ sp) = true →
      fs.readFile (root ++ sp) = some content →
      content ≠ (if content = PyStr.pyReplace content
            (PyStr.pyReplaceChar old_path '/' '\\') (PyStr.pyReplaceChar new_path '/' '\\')
          then PyStr.pyReplace content
            (PyStr.pyReplaceChar old_path '\\' '/') (PyStr.pyReplaceChar new_path '\\' '/')
          else PyStr.pyReplace content
            (PyStr.pyReplaceChar old_path '/' '\\') (PyStr.pyReplaceChar new_path '/' '\\')) →
      (liveE.update_solution_project_path fs sp old_path new_path none (some e)).1 =
        Engine.MigrationResult.mk false ("Failed to update solution: " ++ e) none) ∧
    (fs.existsPath (root ++ fp) = true →
      (Engine.callCli cli cliRun).success = false →
      liveE.rename_namespace fs fp old_namespace new_namespace cliRun (some e) wf =
        (Engine.MigrationResult.mk false ("Failed to rename namespace: " ++ e) none, fs)) ∧
    (fs.existsPath (root ++ fp) = true →
      (Engine.callCli cli cliRun).success = false →
      fs.readFile (root ++ fp) = some content →
      content ≠ Engine.fallbackSubstitution content old_namespace new_namespace →
      (liveE.rename_namespace fs fp old_namespace new_namespace cliRun none (some e)).1 =
        Engine.MigrationResult.mk false ("Failed to rename namespace: " ++ e) none) := by
  subst hl
  refine ⟨?_, ?_, ?_, ?_, ?_, ?_, ?_, ?_, ?_, ?_⟩
  · intro h1 h2
    simp [Engine.MigrationEngine.move_folder, h1, h2]
  · intro h1 h2
    simp [Engine.MigrationEngine.move_folder, h1, h2]
  · intro h1 h2
    simp [Engine.MigrationEngine.move_file, h1, h2]
  · intro h1 h2
    simp [Engine.MigrationEngine.move_file, h1, h2]
  · intro h1
    simp [Engine.MigrationEngine.update_project_reference, h1]
  · intro h1 hread hne
    simp [Engine.MigrationEngine.update_project_reference, h1, hread, hne]
  · intro h1
    simp [Engine.MigrationEngine.update_solution_project_path, h1]
  · intro h1 hread hne
    simp [Engine.MigrationEngine.update_solution_project_path, h1, hread, hne]
  · intro h1 hc
    cases cli with
    | none => simp [Engine.MigrationEngine.rename_namespace, h1]
    | some p => simp [Engine.MigrationEngine.rename_namespace, h1, hc]
  · intro h1 hc hread hne
    cases cli with
    | none => simp [Engine.MigrationEngine.rename_namespace, h1, hread, hne]
    | some p => simp [Engine.MigrationEngine.rename_namespace, h1, hc, hread, hne]

theorem c7_underlying_errors_become_failed_results_witness :
    ((Engine.FS.mk [(["w", "A", "x.csproj"], "ref")] [["w", "A"]]).existsPath
        (["w"] ++ ["A"]) = true) ∧
    ((Engine.FS.mk [(["w", "A", "x.csproj"], "ref")] [["w", "A"]]).existsPath
        (["w"] ++ ["B", "C"]) = false) ∧
    ((Engine.callCli (some ["cli"]) (Except.error "spawn failure")).success = false) ∧
    (Engine.MigrationEngine.mk ["w"] false none).move_folder
        (Engine.FS.mk [(["w", "A", "x.csproj"], "ref")] [["w", "A"]]) ["A"] ["B", "C"]
        none (some "disk full") =
      (Engine.MigrationResult.mk false ("Failed to move folder: " ++ "disk full") none,
        (Engine.FS.mk [(["w", "A", "x.csproj"], "ref")] [["w", "A"]]).mkdirParents
          (["w"] ++ ["B", "C"])) ∧
    (Engine.MigrationEngine.mk ["w"] false none).update_project_reference
        (Engine.FS.mk [(["w", "A", "x.csproj"], "ref")] [["w", "A"]]) ["A"] "a" "b"
        (some "io error") none =
      (Engine.MigrationResult.mk false ("Failed to update reference: " ++ "io error") none,
        Engine.FS.mk [(["w", "A", "x.csproj"], "ref")] [["w", "A"]]) ∧
    (Engine.MigrationEngine.mk ["w"] false (some ["cli"])).rename_namespace
        (Engine.FS.mk [(["w", "A", "x.csproj"], "ref")] [["w", "A"]]) ["A", "x.csproj"]
        "Old" "New" (Except.error "spawn failure") (some "io error") none =
      (Engine.MigrationResult.mk false ("Failed to rename namespace: " ++ "io error") none,
        Engine.FS.mk [(["w", "A", "x.csproj"], "ref")] [["w", "A"]]) := by
  have h := c7_underlying_errors_become_failed_results ["w"] none
    (Engine.FS.mk [(["w", "A", "x.csproj"], "ref")] [["w", "A"]])
    ["A"] ["B", "C"] ["A"] ["S"] ["F"] "a" "b" "" "" "" "" "disk full" none none ""
    (Except.error "") (Engine.MigrationEngine.mk ["w"] false none) rfl
  have h2 := c7_underlying_errors_become_failed_results ["w"] none
    (Engine.FS.mk [(["w", "A", "x.csproj"], "ref")] [["w", "A"]])
    ["A"] ["B", "C"] ["A"] ["S"] ["F"] "a" "b" "" "" "" "" "io error" none none ""
    (Except.error "") (Engine.MigrationEngine.mk ["w"] false none) rfl
  have h3 := c7_underlying_errors_become_failed_results ["w"] (some ["cli"])
    (Engine.FS.mk [(["w", "A", "x.csproj"], "ref")] [["w", "A"]])
    ["A"] ["B", "C"] ["A"] ["S"] ["A", "x.csproj"] "a" "b" "" "" "Old" "New"
    "io error" none none "" (Except.error "spawn failure")
    (Engine.MigrationEngine.mk ["w"] false (some ["cli"])) rfl
  refine ⟨by decide, by decide, by decide, ?_, ?_, ?_⟩
  · exact h.2.1 (by decide) (by decide)
  · exact h2.2.2.2.2.1 (by decide)
  · exact h3.2.2.2.2.2.2.2.2.1 (by decide) (by decide)

namespace Engine

theorem existsPath_iff_mem (fs : FS) (p : FPath) :
    fs.existsPath p = true ↔ p ∈ fs.allPaths := by
  simp only [FS.existsPath, FS.allPaths, Bool.or_eq_true, List.any_eq_true,
    beq_iff_eq, List.mem_append, List.mem_map]
  constructor
  · rintro (⟨e, he, rfl⟩ | ⟨d, hd, rfl⟩)
    · exact Or.inl ⟨e, he, rfl⟩
    · exact Or.inr hd
  · rintro (⟨e, he, rfl⟩ | hd)
    · exact Or.inl ⟨e, he, rfl⟩
    · exact Or.inr ⟨p, hd, rfl⟩

theorem renameUnder_ne_src (S T q : FPath) (hTS : ¬ ∃ t, T ++ t = S) :
    renameUnder S T q ≠ S := by
  by_cases h : S.isPrefixOf q = true
  · simp only [renameUnder, h, if_true]
    intro he
    exact hTS ⟨q.drop S.length, he⟩
  · simp only [renameUnder, h, if_false, Bool.false_eq_true]
    intro he
    subst he
    exact h ((PyStr.isPrefixOf_eq_true_iff q q).mpr ⟨[], by simp⟩)

theorem allPaths_movePath (fs : FS) (S T : FPath) :
    (fs.movePath S T).allPaths = fs.allPaths.map (renameUnder S T) := by
  simp [FS.movePath, FS.allPaths, List.map_map, List.map_append, Function.comp]

theorem existsPath_after_move_eq_false
    (fs : FS) (S T : FPath)
    (hpc : fs.ParentClosed) (h0 : 0 < T.length)
    (hS : fs.existsPath S = true) (hT : fs.existsPath T = false) :
    ((fs.mkdirParents T).movePath S T).existsPath S = false := by
  have key2 : ¬ ∃ t, T ++ t = S := by
    rintro ⟨t, ht⟩
    cases t with
    | nil =>
      rw [List.append_nil] at ht
      subst ht
      rw [hS] at hT
      cases hT
    | cons a t2 =>
      have hlen : T.length < S.length := by
        subst ht
        simp [List.length_append]
      have hmem : S ∈ fs.allPaths := (existsPath_iff_mem fs S).mp hS
      have hanc := hpc S hmem T.length hlen h0
      have htake : S.take T.length = T := by
        subst ht
        exact List.take_left T (a :: t2)
      rw [htake] at hanc
      rw [hanc] at hT
      cases hT
  cases hmoved : ((fs.mkdirParents T).movePath S T).existsPath S with
  | false => rfl
  | true =>
    exfalso
    have hx := (existsPath_iff_mem _ S).mp hmoved
    rw [allPaths_movePath] at hx
    obtain ⟨q, _, hEq⟩ := List.mem_map.mp hx
    exact renameUnder_ne_src S T q key2 hEq

end Engine

/-- C8 (amended): after a successful live (non-dry-run) `move_folder` or
`move_file` on a well-formed starting tree (ancestors of existing entries
exist, nonempty workspace root), immediately re-invoking the identical
move fails with a result reporting that the source does not exist,
whatever the outcome of the second invocation's underlying operations.
(The unamended claim fails when the first invocation does not mutate:
dry-run mode, or a failing precondition such as an existing target.) -/
theorem c8_amended_second_identical_move_reports_missing_source
    (root : Engine.FPath) (cli : Option Engine.FPath) (fs : Engine.FS)
    (src tgt : Engine.FPath) (f2a f2b f3a f3b : Option String)
    (liveE : Engine.MigrationEngine)
    (hl : liveE = Engine.MigrationEngine.mk root false cli)
    (hroot : root ≠ [])
    (hpc : fs.ParentClosed)
    (hS : fs.existsPath (root ++ src) = true)
    (hT : fs.existsPath (root ++ tgt) = false) :
    (liveE.move_folder fs src tgt none none).1.success = true ∧
    (liveE.move_folder ((liveE.move_folder fs src tgt none none).2) src tgt f2a f2b).1 =
      Engine.MigrationResult.mk false
        ("Source folder does not exist: " ++ Engine.fpathStr src) none ∧
    (liveE.move_file fs src tgt none none).1.success = true ∧
    (liveE.move_file ((liveE.move_file fs src tgt none none).2) src tgt f3a f3b).1 =
      Engine.MigrationResult.mk false
        ("Source file does not exist: " ++ Engine.fpathStr src) none := by
  subst hl
  have h0 : 0 < (root ++ tgt).length := by
    cases root with
    | nil => exact absurd rfl hroot
    | cons a r => simp
  have hgone := Engine.existsPath_after_move_eq_false fs (root ++ src) (root ++ tgt)
    hpc h0 hS hT
  refine ⟨?_, ?_, ?_, ?_⟩
  · simp [Engine.MigrationEngine.move_folder, hS, hT]
  · have hstate : ((Engine.MigrationEngine.mk root false cli).move_folder fs src tgt none none).2
        = (fs.mkdirParents (root ++ tgt)).movePath (root ++ src) (root ++ tgt) := by
      simp [Engine.MigrationEngine.move_folder, hS, hT]
    rw [hstate]
    simp [Engine.MigrationEngine.move_folder, hgone]
  · simp [Engine.MigrationEngine.move_file, hS, hT]
  · have hstate : ((Engine.MigrationEngine.mk root false cli).move_file fs src tgt none none).2
        = (fs.mkdirParents (root ++ tgt)).movePath (root ++ src) (root ++ tgt) := by
      simp [Engine.MigrationEngine.move_file, hS, hT]
    rw [hstate]
    simp [Engine.MigrationEngine.move_file, hgone]

theorem c8_amended_second_identical_move_reports_missing_source_witness :
    ((["w"] : Engine.FPath) ≠ []) ∧
    (Engine.FS.mk [] [["w"], ["w", "A"]]).ParentClosed ∧
    ((Engine.FS.mk [] [["w"], ["w", "A"]]).existsPath (["w"] ++ ["A"]) = true) ∧
    ((Engine.FS.mk [] [["w"], ["w", "A"]]).existsPath (["w"] ++ ["B"]) = false) ∧
    (((Engine.MigrationEngine.mk ["w"] false none).move_folder
        (Engine.FS.mk [] [["w"], ["w", "A"]]) ["A"] ["B"] none none).1.success = true ∧
    ((Engine.MigrationEngine.mk ["w"] false none).move_folder
        (((Engine.MigrationEngine.mk ["w"] false none).move_folder
          (Engine.FS.mk [] [["w"], ["w", "A"]]) ["A"] ["B"] none none).2) ["A"] ["B"] none none).1 =
      Engine.MigrationResult.mk false
        ("Source folder does not exist: " ++ Engine.fpathStr ["A"]) none ∧
    ((Engine.MigrationEngine.mk ["w"] false none).move_file
        (Engine.FS.mk [] [["w"], ["w", "A"]]) ["A"] ["B"] none none).1.success = true ∧
    ((Engine.MigrationEngine.mk ["w"] false none).move_file
        (((Engine.MigrationEngine.mk ["w"] false none).move_file
          (Engine.FS.mk [] [["w"], ["w", "A"]]) ["A"] ["B"] none none).2) ["A"] ["B"] none none).1 =
      Engine.MigrationResult.mk false
        ("Source file does not exist: " ++ Engine.fpathStr ["A"]) none) := by
  have hpc : (Engine.FS.mk [] [["w"], ["w", "A"]]).ParentClosed := by
    unfold Engine.FS.ParentClosed
    decide
  exact ⟨by decide, hpc, by decide, by decide,
    c8_amended_second_identical_move_reports_missing_source ["w"] none
      (Engine.FS.mk [] [["w"], ["w", "A"]]) ["A"] ["B"] none none none none
      (Engine.MigrationEngine.mk ["w"] false none) rfl (by decide) hpc
      (by decide) (by decide)⟩

/-- C8 counterexample: the unqualified claim fails — with both source and
target already existing, the first invocation does not move anything and
the second invocation reports the target collision, not a missing
source. -/
theorem c8_counterexample_target_collision_twice :
    (((Engine.MigrationEngine.mk ["w"] false none).move_folder
        ((Engine.MigrationEngine.mk ["w"] false none).move_folder
          (Engine.FS.mk [] [["w", "A"], ["w", "B"]]) ["A"] ["B"] none none).2
        ["A"] ["B"] none none).1.success = false) ∧
    (((Engine.MigrationEngine.mk ["w"] false none).move_folder
        ((Engine.MigrationEngine.mk ["w"] false none).move_folder
          (Engine.FS.mk [] [["w", "A"], ["w", "B"]]) ["A"] ["B"] none none).2
        ["A"] ["B"] none none).1.message = "Target folder already exists: B") ∧
    (Scanning.containsSub "does not exist".data
      ((Engine.MigrationEngine.mk ["w"] false none).move_folder
        ((Engine.MigrationEngine.mk ["w"] false none).move_folder
          (Engine.FS.mk [] [["w", "A"], ["w", "B"]]) ["A"] ["B"] none none).2
        ["A"] ["B"] none none).1.message.data = false) := by
  refine ⟨?_, ?_, ?_⟩ <;> decide

namespace ProjectParsing

open Xml

theorem ns_append_ne (t u : String) (hu : plainStr u = true) :
    MSBUILD_NS ++ t ≠ u := by
  intro he
  have hd := congrArg String.data he
  rw [String.data_append] at hd
  cases hnd : MSBUILD_NS.data with
  | nil => exact absurd hnd (by decide)
  | cons c cs =>
    have hc : c = '\x7b' := by
      have hh : MSBUILD_NS.data.head? = some '\x7b' := rfl
      rw [hnd] at hh
      simpa using hh
    subst hc
    rw [hnd] at hd
    simp only [plainStr, ← hd, List.cons_append] at hu
    simp at hu

theorem ns_append_inj {a b : String} (h : MSBUILD_NS ++ a = MSBUILD_NS ++ b) :
    a = b := by
  have hd := congrArg String.data h
  rw [String.data_append, String.data_append] at hd
  have hab := List.append_cancel_left hd
  cases a with
  | mk la =>
    cases b with
    | mk lb =>
      simp only at hab
      rw [hab]

theorem beq_ns_append (a b : String) :
    ((MSBUILD_NS ++ a) == (MSBUILD_NS ++ b)) = (a == b) := by
  by_cases h : a = b
  · subst h
    simp
  · rw [beq_eq_false_iff_ne.mpr h, beq_eq_false_iff_ne.mpr (fun hc => h (ns_append_inj hc))]

theorem qualifyList_eq_map (l : List XmlElem) :
    qualifyList l = l.map qualifyElem := by
  induction l with
  | nil => rfl
  | cons c cs ih => simp [qualifyList, ih]

theorem tag_qualifyElem (e : XmlElem) :
    (qualifyElem e).tag = MSBUILD_NS ++ e.tag := by
  cases e
  rfl

theorem text_qualifyElem (e : XmlElem) : (qualifyElem e).text = e.text := by
  cases e
  rfl

theorem children_qualifyElem (e : XmlElem) :
    (qualifyElem e).children = e.children.map qualifyElem := by
  cases e with
  | mk t a x cs => simp [qualifyElem, XmlElem.children, qualifyList_eq_map]

mutual
theorem iterAll_qualifyElem (e : XmlElem) :
    (qualifyElem e).iterAll = e.iterAll.map qualifyElem := by
  match e with
  | .mk t a x cs =>
    simp [qualifyElem, XmlElem.iterAll, iterAllList_qualifyList cs]
theorem iterAllList_qualifyList (l : List XmlElem) :
    iterAllList (qualifyList l) = (iterAllList l).map qualifyElem := by
  match l with
  | [] => simp [qualifyList, iterAllList]
  | c :: cs =>
    simp [qualifyList, iterAllList, iterAll_qualifyElem c, iterAllList_qualifyList cs]
end

mutual
theorem plainTags_iterAll (e : XmlElem) (h : plainElem e = true) :
    ∀ x ∈ e.iterAll, plainStr x.tag = true := by
  match e with
  | .mk t a x cs =>
    simp only [plainElem, Bool.and_eq_true] at h
    intro y hy
    simp only [XmlElem.iterAll, List.mem_cons] at hy
    cases hy with
    | inl he => subst he; exact h.1
    | inr hm => exact plainTags_iterAllList cs h.2 y hm
theorem plainTags_iterAllList (l : List XmlElem) (h : plainList l = true) :
    ∀ x ∈ iterAllList l, plainStr x.tag = true := by
  match l with
  | [] => intro y hy; simp [iterAllList] at hy
  | c :: cs =>
    simp only [plainList, Bool.and_eq_true] at h
    intro y hy
    simp only [iterAllList, List.mem_append] at hy
    cases hy with
    | inl hm => exact plainTags_iterAll c h.1 y hm
    | inr hm => exact plainTags_iterAllList cs h.2 y hm
end

theorem iterTag_qualifyElem_plain (e : XmlElem) (t : String)
    (ht : plainStr t = true) : (qualifyElem e).iterTag t = [] := by
  unfold XmlElem.iterTag
  rw [iterAll_qualifyElem, List.filter_map]
  rw [List.filter_eq_nil_iff.mpr ?_]
  · simp
  · intro x _
    simp only [Function.comp_apply, tag_qualifyElem]
    simp [ns_append_ne x.tag t ht]

theorem iterTag_qualifyElem_ns (e : XmlElem) (t : String) :
    (qualifyElem e).iterTag (MSBUILD_NS ++ t) = (e.iterTag t).map qualifyElem := by
  unfold XmlElem.iterTag
  rw [iterAll_qualifyElem, List.filter_map]
  congr 1
  apply List.filter_congr
  intro x _
  simp only [Function.comp_apply, tag_qualifyElem, beq_ns_append]

theorem iterTag_ns_plain (e : XmlElem) (t : String) (he : plainElem e = true) :
    e.iterTag (MSBUILD_NS ++ t) = [] := by
  unfold XmlElem.iterTag
  rw [List.filter_eq_nil_iff.mpr ?_]
  intro x hx
  simp [(ns_append_ne t x.tag (plainTags_iterAll e he x hx)).symm]

theorem findChild_qualifyElem (pg : XmlElem) (name : String) :
    (qualifyElem pg).findChild (MSBUILD_NS ++ name) =
      (pg.findChild name).map qualifyElem := by
  unfold XmlElem.findChild
  rw [children_qualifyElem, List.find?_map]
  have hfun : ((fun c : XmlElem => c.tag == MSBUILD_NS ++ name) ∘ qualifyElem) =
      fun c : XmlElem => c.tag == name := by
    funext c
    simp only [Function.comp_apply, tag_qualifyElem, beq_ns_append]
  rw [hfun]

theorem propFromGroup_qualify (name : String) (pg : XmlElem) :
    propFromGroup (MSBUILD_NS ++ name) (qualifyElem pg) = propFromGroup name pg := by
  unfold propFromGroup
  rw [findChild_qualifyElem]
  cases pg.findChild name with
  | none => rfl
  | some el => simp [text_qualifyElem]

theorem findSome?_map_congr {α β γ : Type} (q : α → β) (f : β → Option γ)
    (g : α → Option γ) (l : List α) (h : ∀ x, f (q x) = g x) :
    (l.map q).findSome? f = l.findSome? g := by
  induction l with
  | nil => rfl
  | cons a as ih =>
    rw [List.map_cons, List.findSome?_cons, List.findSome?_cons, h a, ih]

theorem getProperty_qualify (root : XmlElem) (name : String)
    (hroot : plainElem root = true) :
    getProperty (qualifyElem root) name = getProperty root name := by
  unfold getProperty
  rw [iterTag_qualifyElem_plain root "PropertyGroup" (by decide)]
  rw [iterTag_qualifyElem_ns root "PropertyGroup"]
  rw [findSome?_map_congr qualifyElem (propFromGroup (MSBUILD_NS ++ name))
    (propFromGroup name) (root.iterTag "PropertyGroup") (propFromGroup_qualify name)]
  rw [iterTag_ns_plain root "PropertyGroup" hroot]
  cases (root.iterTag "PropertyGroup").findSome? (propFromGroup name) with
  | none => rfl
  | some v => rfl

end ProjectParsing

/-- C4: a legacy-dialect build-description file (every element qualified
by the MSBuild XML namespace) and the SDK-style file with the same
content yield identical trimmed values from `_get_property` for
`TargetFramework`, `RootNamespace` and `OutputType`. -/
theorem c4_property_lookup_dialect_equivalence
    (root : Xml.XmlElem) (hroot : ProjectParsing.plainElem root = true) :
    ProjectParsing.getProperty (ProjectParsing.qualifyElem root) "TargetFramework" =
      ProjectParsing.getProperty root "TargetFramework" ∧
    ProjectParsing.getProperty (ProjectParsing.qualifyElem root) "RootNamespace" =
      ProjectParsing.getProperty root "RootNamespace" ∧
    ProjectParsing.getProperty (ProjectParsing.qualifyElem root) "OutputType" =
      ProjectParsing.getProperty root "OutputType" :=
  ⟨ProjectParsing.getProperty_qualify root "TargetFramework" hroot,
   ProjectParsing.getProperty_qualify root "RootNamespace" hroot,
   ProjectParsing.getProperty_qualify root "OutputType" hroot⟩

theorem c4_property_lookup_dialect_equivalence_witness :
    (ProjectParsing.plainElem
      (Xml.XmlElem.mk "Project" [("Sdk", "Microsoft.NET.Sdk")] none
        [Xml.XmlElem.mk "PropertyGroup" [] none
          [Xml.XmlElem.mk "TargetFramework" [] (some " net8.0 ") [],
           Xml.XmlElem.mk "OutputType" [] (some "Exe") []]]) = true) ∧
    (ProjectParsing.getProperty
      (ProjectParsing.qualifyElem
        (Xml.XmlElem.mk "Project" [("Sdk", "Microsoft.NET.Sdk")] none
          [Xml.XmlElem.mk "PropertyGroup" [] none
            [Xml.XmlElem.mk "TargetFramework" [] (some " net8.0 ") [],
             Xml.XmlElem.mk "OutputType" [] (some "Exe") []]])) "TargetFramework" =
      ProjectParsing.getProperty
        (Xml.XmlElem.mk "Project" [("Sdk", "Microsoft.NET.Sdk")] none
          [Xml.XmlElem.mk "PropertyGroup" [] none
            [Xml.XmlElem.mk "TargetFramework" [] (some " net8.0 ") [],
             Xml.XmlElem.mk "OutputType" [] (some "Exe") []]]) "TargetFramework") :=
  ⟨by decide,
    (c4_property_lookup_dialect_equivalence
      (Xml.XmlElem.mk "Project" [("Sdk", "Microsoft.NET.Sdk")] none
        [Xml.XmlElem.mk "PropertyGroup" [] none
          [Xml.XmlElem.mk "TargetFramework" [] (some " net8.0 ") [],
           Xml.XmlElem.mk "OutputType" [] (some "Exe") []]]) (by decide)).1⟩
